import Mathlib

/-!
# Concierge AI — verification of the routing and retrieval pipeline

Shallow embedding of the decision pipeline of the `concierge-ai` repository:
intent-aware complexity scoring, confidence calculation, the routing decision,
expert matching, and the SQL hybrid-search function
(`supabase/migrations/01_bm25_search.sql`).  Python floats are modelled as `ℚ`;
query texts are modelled as their list of lowercase words, so that a
word-boundary regex match (`\b...\b`) becomes membership / infix containment on
the word list.  External numeric primitives (PostgreSQL's `ts_rank_cd`, `@@`,
`<=>`, Python's `math.sqrt`, the LLM rewrite call) are abstracted as function
parameters: the claims under verification do not depend on their internals.
-/

namespace Concierge

/-- The routing decision enum (`route_decision` is `"ai"` or `"human"` in the
repository's data model). -/
inductive Route where
  | AI : Route
  | HUMAN : Route
  deriving DecidableEq, Repr

/-- A query text, modelled as its list of lowercase words.  A word-boundary
keyword match of the Python code (`re.search(r'\b' + kw + r'\b', query.lower())`)
becomes infix containment of the keyword's word list. -/
abbrev Query := List String

/-- Urgency-indicator keyword patterns of the intent classifier / complexity
scorer (technical_blog.md: `r'\baudite?d?\b', r'\birs\b', r'\bpenalty\b', ...`). -/
def urgency_indicators : List Query :=
  [["audit"], ["audited"], ["irs"], ["penalty"]]

/-- Technical/risk keyword set of `score_complexity`
(technical_blog.md: `['international', 'capital gains', 'partnership', ...]`). -/
def complex_keywords : List Query :=
  [["international"], ["capital", "gains"], ["partnership"]]

/-- A word-boundary keyword/phrase match against the query's word list. -/
def matches_keyword (q : Query) (kw : Query) : Bool :=
  decide (kw <:+: q)

/-- `has_urgency`: the query contains an urgency-indicator match. -/
def has_urgency (q : Query) : Bool :=
  urgency_indicators.any (matches_keyword q)

/-- `complex_count` of `score_complexity`:
`sum(1 for kw in complex_keywords if re.search(r'\b'+kw+r'\b', query.lower()))`. -/
def complex_count (q : Query) : Nat :=
  (complex_keywords.filter (matches_keyword q)).length

/-- The intent→score table of `score_complexity` with its `.get(intent, 3)`
default: `{'simple_tax': 2, 'complex_tax': 3, 'urgent': 5}`. -/
def intent_base_score (intent : String) : Nat :=
  if intent = "simple_tax" then 2
  else if intent = "complex_tax" then 3
  else if intent = "urgent" then 5
  else 3

/-- `score_complexity` (technical_blog.md lines 93–114): base score from the
intent table, raised to at least 4 on any technical/risk keyword match, forced
to 5 on an urgency-indicator match. -/
def score_complexity (q : Query) (intent : String) : Nat :=
  let base_score := intent_base_score intent
  let base_score := if complex_count q > 0 then max base_score 4 else base_score
  if has_urgency q then 5 else base_score

/-- Modelled from the spec: the routing decision implemented in the
orchestrator (`chat.py`), whose source is not in the repository snapshot (only
prose descriptions in README_TECHNICAL.md).  Spec §4.9:
`route = HUMAN if complexity >= 4 OR confidence < 0.60 OR urgency_flag else AI`. -/
def route_decision (complexity : Nat) (confidence : ℚ) (urgency : Bool) : Route :=
  if 4 ≤ complexity ∨ confidence < 0.60 ∨ urgency = true then Route.HUMAN else Route.AI

/-- `calculate_confidence` (technical_blog.md lines 460–481).  Python float
truthiness of `rerank_score` is `rerank_score ≠ 0`. -/
def calculate_confidence (max_similarity rerank_score : ℚ) (has_citations : Bool)
    (llm_confidence : ℚ) : ℚ :=
  let retrieval_confidence :=
    if rerank_score ≠ 0 then max_similarity * 0.6 + rerank_score * 0.4 else max_similarity
  let retrieval_confidence :=
    if has_citations then min 1 (retrieval_confidence * 1.1) else retrieval_confidence
  let combined_confidence := retrieval_confidence * 0.7 + llm_confidence * 0.3
  min 0.95 combined_confidence

/-- The human-referral phrase checked on the generated answer
(`'consult an expert' in cleaned_answer.lower()`). -/
def human_referral_phrase : List Char := "consult an expert".toList

/-- `'consult an expert' in cleaned_answer.lower()` of the confidence
post-processing step. -/
def contains_referral (answer : String) : Bool :=
  decide (human_referral_phrase <:+: answer.toList.map Char.toLower)

/-- The confidence pipeline of technical_blog.md lines 494–501:
`calculate_confidence` followed by the referral deflation step
`if 'consult an expert' in cleaned_answer.lower(): confidence = min(confidence, 0.7)`. -/
def final_confidence (max_similarity rerank_score : ℚ) (has_citations : Bool)
    (llm_confidence : ℚ) (answer : String) : ℚ :=
  let confidence := calculate_confidence max_similarity rerank_score has_citations llm_confidence
  if contains_referral answer then min confidence 0.7 else confidence

/-! ## Expert matching (`find_best_expert`, technical_blog.md lines 535–569) -/

/-- An expert profile row of the `experts` table, restricted to the fields the
scoring loop reads. -/
structure Expert where
  id : Nat
  specialties : List String
  status : String
  avg_rating : ℚ
  expertise_embedding : List ℚ
  deriving DecidableEq, Repr

/-- `sum(a * b for a, b in zip(query_embedding, expert_embedding))`. -/
def dot_product (a b : List ℚ) : ℚ :=
  ((a.zip b).map (fun p => p.1 * p.2)).foldl (· + ·) 0

/-- `sum(a * a for a in v)`, the squared norm fed to `math.sqrt`. -/
def sum_squares (v : List ℚ) : ℚ :=
  (v.map (fun x => x * x)).foldl (· + ·) 0

/-- Specialty-match weight of the expert scorer. -/
def specialty_weight : ℚ := 0.40

/-- Availability weight of the expert scorer. -/
def availability_weight : ℚ := 0.30

/-- Performance weight of the expert scorer. -/
def performance_weight : ℚ := 0.20

/-- Semantic-similarity weight of the expert scorer. -/
def semantic_weight : ℚ := 0.10

/-- The per-expert scoring loop body of `find_best_expert`
(technical_blog.md lines 538–568): specialty, availability, performance and
semantic factors combined by the fixed weights, then the 1.2 urgency boost when
the expert is available.  `sqrtA` abstracts Python's `math.sqrt`, an external
numeric routine on floats. -/
def expert_final_score (sqrtA : ℚ → ℚ) (query_embedding : List ℚ) (intent : String)
    (urgency : Bool) (expert : Expert) : ℚ :=
  let specialty_score : ℚ := if expert.specialties.contains intent then 1 else 0.3
  let availability_score : ℚ := if expert.status = "available" then 1 else 0.3
  let performance_score : ℚ := expert.avg_rating / 5
  let dp := dot_product query_embedding expert.expertise_embedding
  let norm_q := sqrtA (sum_squares query_embedding)
  let norm_e := sqrtA (sum_squares expert.expertise_embedding)
  let semantic_score := dp / (norm_q * norm_e)
  let final_score :=
    specialty_score * specialty_weight + availability_score * availability_weight +
      performance_score * performance_weight + semantic_score * semantic_weight
  if urgency ∧ expert.status = "available" then final_score * 1.2 else final_score

/-- Modelled from the spec: the arg-max selection of `find_best_expert` — the
blog listing ends with the scoring loop, and the selection code
(`services/expert_matcher.py`) is not in the repository snapshot.  Spec §4.10:
"Select the arg-max expert"; ties keep the earlier expert, a deterministic rule
the spec leaves open. -/
def find_best_expert (sqrtA : ℚ → ℚ) (query_embedding : List ℚ) (intent : String)
    (urgency : Bool) : List Expert → Option Expert
  | [] => none
  | e :: rest => some (rest.foldl
      (fun best cand =>
        if expert_final_score sqrtA query_embedding intent urgency best <
            expert_final_score sqrtA query_embedding intent urgency cand
        then cand else best) e)

/-! ## Hybrid search (`hybrid_search_knowledge_documents`,
src/supabase/migrations/01_bm25_search.sql lines 39–92) -/

/-- A `knowledge_documents` row, reduced to its key: the two legs read only
`content_tsv` and `embedding`, which enter the model through the abstract
per-document functions `ts_match`, `ts_rank` and `similarity` (the query being
fixed). -/
structure KnowledgeDoc where
  id : Nat
  deriving DecidableEq, Repr

/-- A row of the table returned by `hybrid_search_knowledge_documents`. -/
structure HybridRow where
  id : Nat
  bm25_score : ℚ
  similarity : ℚ
  combined_score : ℚ
  deriving DecidableEq, Repr

/-- The `bm25_results` CTE: rows whose `content_tsv` matches
`websearch_to_tsquery(query_text)` (abstracted as `ts_match`), scored by
`ts_rank_cd` (abstracted as `ts_rank`). -/
def bm25_results (docs : List KnowledgeDoc) (ts_match : KnowledgeDoc → Bool)
    (ts_rank : KnowledgeDoc → ℚ) : List (Nat × ℚ) :=
  (docs.filter ts_match).map (fun d => (d.id, ts_rank d))

/-- The `vector_results` CTE: the `match_count * 2` rows nearest by cosine
distance `embedding <=> query_embedding`, i.e. of largest similarity
`1 - (embedding <=> query_embedding)` (abstracted as `similarity`). -/
def vector_results (docs : List KnowledgeDoc) (similarity : KnowledgeDoc → ℚ)
    (match_count : Nat) : List (Nat × ℚ) :=
  ((docs.insertionSort (fun a b => similarity b ≤ similarity a)).take (match_count * 2)).map
    (fun d => (d.id, similarity d))

/-- Score lookup by document id in a leg's result list. -/
def leg_lookup (leg : List (Nat × ℚ)) (i : Nat) : Option ℚ :=
  (leg.find? (fun p => p.1 == i)).map Prod.snd

/-- The `FULL OUTER JOIN ... ON b.id = v.id` of the two legs, with
`COALESCE(b.bm25_score, 0.0)`, `COALESCE(v.similarity, 0.0)` and
`combined_score = COALESCE(b.bm25_score,0)*bm25_weight + COALESCE(v.similarity,0)*vector_weight`. -/
def hybrid_join (b v : List (Nat × ℚ)) (bm25_weight vector_weight : ℚ) : List HybridRow :=
  b.map (fun p =>
    { id := p.1, bm25_score := p.2,
      similarity := (leg_lookup v p.1).getD 0,
      combined_score := p.2 * bm25_weight + (leg_lookup v p.1).getD 0 * vector_weight }) ++
  (v.filter (fun p => (leg_lookup b p.1).isNone)).map (fun p =>
    { id := p.1, bm25_score := 0, similarity := p.2,
      combined_score := 0 * bm25_weight + p.2 * vector_weight })

/-- `hybrid_search_knowledge_documents` of the migration: join the two legs,
`ORDER BY combined_score DESC` (a stable sort on the single sort key the SQL
gives), `LIMIT match_count`.  Defaults in the migration: `match_count = 10`,
`bm25_weight = 0.5`, `vector_weight = 0.5`. -/
def hybrid_search_knowledge_documents (docs : List KnowledgeDoc)
    (ts_match : KnowledgeDoc → Bool) (ts_rank : KnowledgeDoc → ℚ)
    (similarity : KnowledgeDoc → ℚ) (match_count : Nat)
    (bm25_weight vector_weight : ℚ) : List HybridRow :=
  ((hybrid_join (bm25_results docs ts_match ts_rank)
      (vector_results docs similarity match_count) bm25_weight vector_weight).insertionSort
    (fun a b => b.combined_score ≤ a.combined_score)).take match_count

/-! ## Query contextualization gate -/

/-- Modelled from the spec: the history gate at the contextualizer call site
(`services/rag_service.py`, not in the repository snapshot; README_TECHNICAL.md:
"If history exists, uses Llama 3.3 to rewrite the query as a standalone
question").  `rewrite` abstracts the `contextualize_query` LLM call; spec §4.3:
invoked only when conversation history is non-empty. -/
def retrieval_query (rewrite : String → List String → String) (query : String)
    (history : List String) : String :=
  if history.isEmpty then query else rewrite query history

/-! ## Concrete instances used by witnesses and counterexamples -/

/-- Scenario-B style query: "I got an IRS audit notice", tokenized. -/
def query_audit : Query := ["i", "got", "an", "irs", "audit", "notice"]

/-- A query with both a technical/risk keyword and an urgency indicator. -/
def query_audit_partnership : Query := ["irs", "audit", "of", "my", "partnership"]

/-- Witness expert: specialty match, available, rating 4, embedding `[1,0]`. -/
def expert_a : Expert :=
  { id := 1, specialties := ["crypto"], status := "available", avg_rating := 4,
    expertise_embedding := [1, 0] }

/-- Witness expert: no specialty match, busy, rating 5, embedding `[0,1]`. -/
def expert_b : Expert :=
  { id := 2, specialties := [], status := "busy", avg_rating := 5,
    expertise_embedding := [0, 1] }

/-- Witness corpus for hybrid-search claims: two documents. -/
def docs_c2 : List KnowledgeDoc := [⟨1⟩, ⟨2⟩]

/-- Witness lexical match: only document 1 has a lexical hit. -/
def ts_match_c2 (d : KnowledgeDoc) : Bool := d.id == 1

/-- Witness lexical score: constant 1. -/
def ts_rank_c2 (_ : KnowledgeDoc) : ℚ := 1

/-- Witness similarity: 0.6 for document 2, 0.1 for document 1. -/
def similarity_c2 (d : KnowledgeDoc) : ℚ := if d.id == 2 then 0.6 else 0.1

/-- Counterexample corpus for the similarity-floor claim: a single document
with no lexical hit and similarity 0.2, below the alleged 0.3 floor. -/
def docs_c7 : List KnowledgeDoc := [⟨1⟩]

/-- Counterexample lexical match: no document matches. -/
def ts_match_c7 (_ : KnowledgeDoc) : Bool := false

/-- Counterexample lexical score: irrelevant, 0. -/
def ts_rank_c7 (_ : KnowledgeDoc) : ℚ := 0

/-- Counterexample similarity: 0.2, at or below the alleged 0.3 floor. -/
def similarity_c7 (_ : KnowledgeDoc) : ℚ := 0.2

/-- Counterexample corpus for the id-tie-break claim: document 5 stored before
document 3, both with identical leg scores. -/
def docs_c8 : List KnowledgeDoc := [⟨5⟩, ⟨3⟩]

/-- Counterexample lexical match: every document matches. -/
def ts_match_c8 (_ : KnowledgeDoc) : Bool := true

/-- Counterexample lexical score: constant 1. -/
def ts_rank_c8 (_ : KnowledgeDoc) : ℚ := 1

/-- Counterexample similarity: constant 0. -/
def similarity_c8 (_ : KnowledgeDoc) : ℚ := 0

/-- The row returned by the witness corpus that is present only in the vector leg. -/
def row_c2 : HybridRow := ⟨2, 0, 0.6, 0.3⟩

/-- Descending order on `combined_score` is total. -/
instance : IsTotal HybridRow (fun a b => b.combined_score ≤ a.combined_score) :=
  ⟨fun a b => le_total b.combined_score a.combined_score⟩

/-- Descending order on `combined_score` is transitive. -/
instance : IsTrans HybridRow (fun a b => b.combined_score ≤ a.combined_score) :=
  ⟨fun _ _ _ hab hbc => le_trans hbc hab⟩

/-! ## Helper lemmas -/

/-- The best-so-far fold of the arg-max selection never decreases the score and
dominates every scanned expert. -/
theorem foldl_pick_max_ge (f : Expert → ℚ) :
    ∀ (l : List Expert) (b : Expert),
      f b ≤ f (l.foldl (fun best cand => if f best < f cand then cand else best) b) ∧
      ∀ x ∈ l, f x ≤ f (l.foldl (fun best cand => if f best < f cand then cand else best) b)
  | [], _ => ⟨le_refl _, by simp⟩
  | a :: t, b => by
    simp only [List.foldl_cons]
    have step : f b ≤ f (if f b < f a then a else b) := by
      split
      · exact le_of_lt (by assumption)
      · exact le_refl _
    have stepa : f a ≤ f (if f b < f a then a else b) := by
      split
      · exact le_refl _
      · exact le_of_not_lt (by assumption)
    have ih := foldl_pick_max_ge f t (if f b < f a then a else b)
    refine ⟨le_trans step ih.1, ?_⟩
    intro x hx
    rcases List.mem_cons.mp hx with rfl | hxt
    · exact le_trans stepa ih.1
    · exact ih.2 x hxt

/-- A leg containing no entry for `i` looks up to `none`. -/
theorem leg_lookup_eq_none (v : List (Nat × ℚ)) (i : Nat) (h : ∀ p ∈ v, p.1 ≠ i) :
    leg_lookup v i = none := by
  have hfind : List.find? (fun p => p.1 == i) v = none :=
    List.find?_eq_none.mpr (fun x hx => by simpa using h x hx)
  simp [leg_lookup, hfind]

/-- Membership in the hybrid-search output comes from the full outer join. -/
theorem mem_hybrid_join_of_mem_search (docs : List KnowledgeDoc)
    (ts_match : KnowledgeDoc → Bool) (ts_rank : KnowledgeDoc → ℚ)
    (similarity : KnowledgeDoc → ℚ) (match_count : Nat) (bw vw : ℚ) (r : HybridRow)
    (hr : r ∈ hybrid_search_knowledge_documents docs ts_match ts_rank similarity match_count bw vw) :
    r ∈ hybrid_join (bm25_results docs ts_match ts_rank)
        (vector_results docs similarity match_count) bw vw := by
  unfold hybrid_search_knowledge_documents at hr
  exact (List.perm_insertionSort _ _).mem_iff.mp (List.take_subset _ _ hr)

/-- Every joined row satisfies the COALESCE score equation and receives 0 for a
leg it is absent from. -/
theorem hybrid_join_row_spec (b v : List (Nat × ℚ)) (bw vw : ℚ) (r : HybridRow)
    (hr : r ∈ hybrid_join b v bw vw) :
    r.combined_score = bw * r.bm25_score + vw * r.similarity ∧
    ((∀ p ∈ b, p.1 ≠ r.id) → r.bm25_score = 0) ∧
    ((∀ p ∈ v, p.1 ≠ r.id) → r.similarity = 0) := by
  unfold hybrid_join at hr
  rcases List.mem_append.mp hr with h | h
  · rcases List.mem_map.mp h with ⟨p, hp, rfl⟩
    refine ⟨by dsimp only; ring, ?_, ?_⟩
    · intro habs
      exact absurd rfl (habs p hp)
    · intro hnone
      have hlook : leg_lookup v p.1 = none := leg_lookup_eq_none v p.1 (fun q hq => hnone q hq)
      dsimp only
      rw [hlook]
      rfl
  · rcases List.mem_map.mp h with ⟨p, hp, rfl⟩
    have hpv : p ∈ v := List.mem_of_mem_filter hp
    refine ⟨by dsimp only; ring, fun _ => rfl, ?_⟩
    · intro habs
      exact absurd rfl (habs p hpv)

/-! ## Claim theorems -/

/-- C1: the routing decision is a pure, deterministic function of
{complexity, confidence, urgency}: the route is HUMAN exactly when
complexity ≥ 4, or confidence < 0.60, or the urgency flag is set, and AI
exactly otherwise.  Purity and determinism are inherent: `route_decision` is a
total function with no effects. -/
theorem route_decision_spec (complexity : Nat) (confidence : ℚ) (urgency : Bool) :
    (route_decision complexity confidence urgency = Route.HUMAN ↔
      4 ≤ complexity ∨ confidence < 0.60 ∨ urgency = true) ∧
    (route_decision complexity confidence urgency = Route.AI ↔
      ¬(4 ≤ complexity ∨ confidence < 0.60 ∨ urgency = true)) := by
  unfold route_decision
  by_cases h : 4 ≤ complexity ∨ confidence < 0.60 ∨ urgency = true
  · simp [h]
  · simp [h]

/-- C3: any urgency-indicator match in the query forces complexity score 5 and a
HUMAN routing decision, irrespective of intent, confidence, or the urgency flag
handed to the router. -/
theorem urgency_forces_human (q : Query) (intent : String) (h : has_urgency q = true) :
    score_complexity q intent = 5 ∧
    ∀ (confidence : ℚ) (urgency : Bool),
      route_decision (score_complexity q intent) confidence urgency = Route.HUMAN := by
  have h5 : score_complexity q intent = 5 := by
    unfold score_complexity
    simp [h]
  refine ⟨h5, fun confidence urgency => ?_⟩
  rw [h5]
  unfold route_decision
  have h45 : (4 : Nat) ≤ 5 := by norm_num
  simp [h45]

/-- Witness for C3 at the Scenario-B query "I got an IRS audit notice". -/
theorem urgency_forces_human_witness :
    score_complexity query_audit "general" = 5 ∧
    route_decision (score_complexity query_audit "general") 0.9 false = Route.HUMAN :=
  ⟨(urgency_forces_human query_audit "general" (by decide)).1,
   (urgency_forces_human query_audit "general" (by decide)).2 0.9 false⟩

/-- C9: for every query and intent the complexity score lies in {1,…,5}; a
technical/risk keyword match raises it to at least 4, and an urgency match
forces it to 5. -/
theorem score_complexity_range (q : Query) (intent : String) :
    (1 ≤ score_complexity q intent ∧ score_complexity q intent ≤ 5) ∧
    (0 < complex_count q → 4 ≤ score_complexity q intent) ∧
    (has_urgency q = true → score_complexity q intent = 5) := by
  have hb : 1 ≤ intent_base_score intent ∧ intent_base_score intent ≤ 5 := by
    unfold intent_base_score
    split_ifs <;> norm_num
  have hdef : score_complexity q intent =
      if has_urgency q then 5
      else if complex_count q > 0 then max (intent_base_score intent) 4
      else intent_base_score intent := rfl
  rw [hdef]
  obtain ⟨hb1, hb2⟩ := hb
  by_cases hu : has_urgency q = true
  · rw [if_pos hu]
    exact ⟨⟨by norm_num, by norm_num⟩, fun _ => by norm_num, fun _ => rfl⟩
  · rw [if_neg hu]
    by_cases hc : complex_count q > 0
    · rw [if_pos hc]
      exact ⟨⟨by omega, by omega⟩, fun _ => le_max_right _ _, fun habs => absurd habs hu⟩
    · rw [if_neg hc]
      exact ⟨⟨hb1, hb2⟩, fun h0 => absurd h0 hc, fun habs => absurd habs hu⟩

/-- Witness for C9 at a query with both a technical keyword and an urgency
indicator, exercising both implications. -/
theorem score_complexity_range_witness :
    (1 ≤ score_complexity query_audit_partnership "simple_tax" ∧
      score_complexity query_audit_partnership "simple_tax" ≤ 5) ∧
    4 ≤ score_complexity query_audit_partnership "simple_tax" ∧
    score_complexity query_audit_partnership "simple_tax" = 5 :=
  ⟨(score_complexity_range query_audit_partnership "simple_tax").1,
   (score_complexity_range query_audit_partnership "simple_tax").2.1 (by decide),
   (score_complexity_range query_audit_partnership "simple_tax").2.2 (by decide)⟩

/-- C4 is false as stated: `calculate_confidence` has no lower clamp, so a
negative best similarity (cosine similarity ranges over [-1, 1]) yields a
confidence below 0. -/
theorem calculate_confidence_negative :
    calculate_confidence (-1) 0 false 0.5 < 0 := by
  norm_num [calculate_confidence, min_def]

/-- C4 (amended): the confidence is capped at 0.95 for every combination of
inputs, and it additionally lies in [0, 0.95] whenever the input signals are
nonnegative. -/
theorem calculate_confidence_range (max_similarity rerank_score llm_confidence : ℚ)
    (has_citations : Bool) :
    calculate_confidence max_similarity rerank_score has_citations llm_confidence ≤ 0.95 ∧
    (0 ≤ max_similarity → 0 ≤ rerank_score → 0 ≤ llm_confidence →
      0 ≤ calculate_confidence max_similarity rerank_score has_citations llm_confidence) := by
  constructor
  · simp only [calculate_confidence, min_def]
    split_ifs <;> linarith
  · intro h1 h2 h3
    simp only [calculate_confidence, min_def]
    split_ifs <;> linarith

/-- Witness for C4 (amended) at Scenario-D style inputs. -/
theorem calculate_confidence_range_witness :
    calculate_confidence 0.5 0.9 true 0.7 ≤ 0.95 ∧
    0 ≤ calculate_confidence 0.5 0.9 true 0.7 :=
  ⟨(calculate_confidence_range 0.5 0.9 0.7 true).1,
   (calculate_confidence_range 0.5 0.9 0.7 true).2 (by norm_num) (by norm_num) (by norm_num)⟩

/-- C5: if the generated answer contains the human-referral phrase
"consult an expert", the final confidence is at most 0.7 regardless of the
computed retrieval/rerank value. -/
theorem referral_caps_confidence (max_similarity rerank_score llm_confidence : ℚ)
    (has_citations : Bool) (answer : String) (h : contains_referral answer = true) :
    final_confidence max_similarity rerank_score has_citations llm_confidence answer ≤ 0.7 := by
  unfold final_confidence
  simp only [h, if_true]
  exact min_le_right _ _

/-- Witness for C5 at a concrete referral answer and saturated signals. -/
theorem referral_caps_confidence_witness :
    final_confidence 0.9 0.9 true 0.9 "Please consult an expert for this." ≤ 0.7 :=
  referral_caps_confidence 0.9 0.9 0.9 true "Please consult an expert for this." (by decide)

/-- C6: the expert matcher's final score is exactly
0.40·specialty + 0.30·availability + 0.20·performance + 0.10·semantic, the four
weights sum to 1, the 1.2 multiplier applies exactly when urgency is set and
the expert is available, and the selected expert maximizes the score. -/
theorem find_best_expert_spec (sqrtA : ℚ → ℚ) (query_embedding : List ℚ) (intent : String)
    (urgency : Bool) (e best : Expert) (experts : List Expert)
    (hmem : e ∈ experts)
    (hbest : find_best_expert sqrtA query_embedding intent urgency experts = some best) :
    expert_final_score sqrtA query_embedding intent urgency e =
      ((if e.specialties.contains intent then (1 : ℚ) else 0.3) * 0.40 +
        (if e.status = "available" then (1 : ℚ) else 0.3) * 0.30 +
        (e.avg_rating / 5) * 0.20 +
        (dot_product query_embedding e.expertise_embedding /
          (sqrtA (sum_squares query_embedding) *
            sqrtA (sum_squares e.expertise_embedding))) * 0.10) *
      (if urgency ∧ e.status = "available" then 1.2 else 1) ∧
    specialty_weight + availability_weight + performance_weight + semantic_weight = 1 ∧
    expert_final_score sqrtA query_embedding intent urgency e ≤
      expert_final_score sqrtA query_embedding intent urgency best := by
  refine ⟨?_, by norm_num [specialty_weight, availability_weight, performance_weight,
    semantic_weight], ?_⟩
  · unfold expert_final_score specialty_weight availability_weight performance_weight
      semantic_weight
    split_ifs <;> ring
  · cases experts with
    | nil => simp at hmem
    | cons a t =>
      unfold find_best_expert at hbest
      have hb := Option.some.inj hbest
      subst hb
      rcases List.mem_cons.mp hmem with rfl | hment
      · exact (foldl_pick_max_ge _ t e).1
      · exact (foldl_pick_max_ge _ t a).2 e hment

/-- Witness for C6: two concrete experts, the available specialty match wins. -/
theorem find_best_expert_spec_witness :
    specialty_weight + availability_weight + performance_weight + semantic_weight = 1 ∧
    expert_final_score id [1, 0] "crypto" true expert_b ≤
      expert_final_score id [1, 0] "crypto" true expert_a :=
  ⟨(find_best_expert_spec id [1, 0] "crypto" true expert_b expert_a [expert_a, expert_b]
      (by decide)
      (by norm_num [find_best_expert, expert_final_score, expert_a, expert_b, dot_product,
        sum_squares, specialty_weight, availability_weight, performance_weight,
        semantic_weight, List.contains,
        show ("busy" : String) ≠ "available" from by decide])).2.1,
   (find_best_expert_spec id [1, 0] "crypto" true expert_b expert_a [expert_a, expert_b]
      (by decide)
      (by norm_num [find_best_expert, expert_final_score, expert_a, expert_b, dot_product,
        sum_squares, specialty_weight, availability_weight, performance_weight,
        semantic_weight, List.contains,
        show ("busy" : String) ≠ "available" from by decide])).2.2⟩

/-- C2: every row returned by `hybrid_search_knowledge_documents` has
`combined_score = bm25_weight·bm25_score + vector_weight·similarity`, and a row
absent from a leg carries exactly 0 for that leg's component. -/
theorem hybrid_combined_score_spec (docs : List KnowledgeDoc)
    (ts_match : KnowledgeDoc → Bool) (ts_rank : KnowledgeDoc → ℚ)
    (similarity : KnowledgeDoc → ℚ) (match_count : Nat) (bw vw : ℚ) (r : HybridRow)
    (hr : r ∈ hybrid_search_knowledge_documents docs ts_match ts_rank similarity
      match_count bw vw) :
    r.combined_score = bw * r.bm25_score + vw * r.similarity ∧
    ((∀ p ∈ bm25_results docs ts_match ts_rank, p.1 ≠ r.id) → r.bm25_score = 0) ∧
    ((∀ p ∈ vector_results docs similarity match_count, p.1 ≠ r.id) → r.similarity = 0) :=
  hybrid_join_row_spec _ _ _ _ r
    (mem_hybrid_join_of_mem_search docs ts_match ts_rank similarity match_count bw vw r hr)

/-- Witness for C2 with the migration's default weights 0.5/0.5, at a returned
row present only in the vector leg. -/
theorem hybrid_combined_score_spec_witness :
    row_c2.combined_score = (1/2) * row_c2.bm25_score + (1/2) * row_c2.similarity ∧
    row_c2.bm25_score = 0 :=
  ⟨(hybrid_combined_score_spec docs_c2 ts_match_c2 ts_rank_c2 similarity_c2 2 (1/2) (1/2)
      row_c2
      (by norm_num [hybrid_search_knowledge_documents, hybrid_join, bm25_results,
        vector_results, leg_lookup, docs_c2, ts_match_c2, ts_rank_c2, similarity_c2, row_c2,
        List.insertionSort, List.orderedInsert])).1,
   (hybrid_combined_score_spec docs_c2 ts_match_c2 ts_rank_c2 similarity_c2 2 (1/2) (1/2)
      row_c2
      (by norm_num [hybrid_search_knowledge_documents, hybrid_join, bm25_results,
        vector_results, leg_lookup, docs_c2, ts_match_c2, ts_rank_c2, similarity_c2, row_c2,
        List.insertionSort, List.orderedInsert])).2.1
    (by norm_num [bm25_results, docs_c2, ts_match_c2, ts_rank_c2, row_c2])⟩

/-- C7 is false as stated: the migration's hybrid search applies no similarity
floor on the vector leg — a document with no lexical hit and similarity 0.2,
at or below the alleged 0.3 floor, is still returned. -/
theorem hybrid_no_similarity_floor :
    hybrid_search_knowledge_documents docs_c7 ts_match_c7 ts_rank_c7 similarity_c7 5
        (1/2) (1/2) =
      [{ id := 1, bm25_score := 0, similarity := 0.2, combined_score := 0.1 }] ∧
    ts_match_c7 ⟨1⟩ = false ∧ ((0.2 : ℚ) ≤ 0.3) :=
  ⟨by norm_num [hybrid_search_knowledge_documents, hybrid_join, bm25_results, vector_results,
      leg_lookup, docs_c7, ts_match_c7, ts_rank_c7, similarity_c7, List.insertionSort,
      List.orderedInsert],
   rfl, by norm_num⟩

/-- C7 (amended): a candidate appears in the output only with a lexical hit or
as one of the `2·match_count` vector-nearest documents; no similarity floor is
applied. -/
theorem hybrid_candidate_provenance (docs : List KnowledgeDoc)
    (ts_match : KnowledgeDoc → Bool) (ts_rank : KnowledgeDoc → ℚ)
    (similarity : KnowledgeDoc → ℚ) (match_count : Nat) (bw vw : ℚ) (r : HybridRow)
    (hr : r ∈ hybrid_search_knowledge_documents docs ts_match ts_rank similarity
      match_count bw vw) :
    (∃ d ∈ docs, d.id = r.id ∧ ts_match d = true) ∨
      r.id ∈ (vector_results docs similarity match_count).map Prod.fst := by
  have h := mem_hybrid_join_of_mem_search docs ts_match ts_rank similarity match_count bw vw r hr
  unfold hybrid_join at h
  rcases List.mem_append.mp h with h | h
  · rcases List.mem_map.mp h with ⟨p, hp, rfl⟩
    left
    unfold bm25_results at hp
    rcases List.mem_map.mp hp with ⟨d, hd, rfl⟩
    exact ⟨d, (List.mem_filter.mp hd).1, rfl, (List.mem_filter.mp hd).2⟩
  · rcases List.mem_map.mp h with ⟨p, hp, rfl⟩
    right
    exact List.mem_map.mpr ⟨p, List.mem_of_mem_filter hp, rfl⟩

/-- Witness for C7 (amended) at the floor counterexample corpus. -/
theorem hybrid_candidate_provenance_witness :
    (∃ d ∈ docs_c7, d.id = 1 ∧ ts_match_c7 d = true) ∨
      1 ∈ (vector_results docs_c7 similarity_c7 5).map Prod.fst :=
  hybrid_candidate_provenance docs_c7 ts_match_c7 ts_rank_c7 similarity_c7 5 (1/2) (1/2)
    ⟨1, 0, 0.2, 0.1⟩
    (by norm_num [hybrid_search_knowledge_documents, hybrid_join, bm25_results, vector_results,
      leg_lookup, docs_c7, ts_match_c7, ts_rank_c7, similarity_c7, List.insertionSort,
      List.orderedInsert])

/-- C8 is false as stated: ORDER BY has no secondary key, so two rows with equal
combined_score come back in join order — document 5 before document 3. -/
theorem hybrid_no_id_tiebreak :
    (hybrid_search_knowledge_documents docs_c8 ts_match_c8 ts_rank_c8 similarity_c8 2
        (1/2) (1/2)).map HybridRow.id = [5, 3] ∧
    (hybrid_search_knowledge_documents docs_c8 ts_match_c8 ts_rank_c8 similarity_c8 2
        (1/2) (1/2)).map HybridRow.combined_score = [1/2, 1/2] :=
  ⟨by norm_num [hybrid_search_knowledge_documents, hybrid_join, bm25_results, vector_results,
      leg_lookup, docs_c8, ts_match_c8, ts_rank_c8, similarity_c8, List.insertionSort,
      List.orderedInsert],
   by norm_num [hybrid_search_knowledge_documents, hybrid_join, bm25_results, vector_results,
      leg_lookup, docs_c8, ts_match_c8, ts_rank_c8, similarity_c8, List.insertionSort,
      List.orderedInsert]⟩

/-- C8 (amended): hybrid search returns at most `match_count` rows sorted in
descending order of combined_score; ties are not broken by document id. -/
theorem hybrid_output_sorted_topk (docs : List KnowledgeDoc)
    (ts_match : KnowledgeDoc → Bool) (ts_rank : KnowledgeDoc → ℚ)
    (similarity : KnowledgeDoc → ℚ) (match_count : Nat) (bw vw : ℚ) :
    List.Sorted (fun a b : HybridRow => b.combined_score ≤ a.combined_score)
      (hybrid_search_knowledge_documents docs ts_match ts_rank similarity match_count bw vw) ∧
    (hybrid_search_knowledge_documents docs ts_match ts_rank similarity
      match_count bw vw).length ≤ match_count := by
  constructor
  · unfold hybrid_search_knowledge_documents
    exact List.Pairwise.sublist (List.take_sublist _ _) (List.sorted_insertionSort _ _)
  · unfold hybrid_search_knowledge_documents
    exact List.length_take_le _ _

/-- C10: with empty conversation history the contextualizer is not invoked and
the text used for retrieval is the original query (identity law). -/
theorem retrieval_query_empty_history (rewrite : String → List String → String)
    (query : String) : retrieval_query rewrite query [] = query := rfl

end Concierge
